import Mathlib

/-!
Verification of `chromalog.colorizer` (file `src/chromalog/colorizer.py`).

The module is shallowly embedded: Python dictionaries become association
lists, `None`-able arguments become `Option`, and the `str.format`
substitution (standard library, external to the repository) is modelled as
a character scanner over the template string.  Every definition mirrors the
corresponding Python function line by line; truthiness tests (`if pairs`,
`if context_color_tag`, `if color_tag`) are translated by their Python
semantics (empty string / empty list / `None` are falsy, every tuple of
two strings is truthy).
-/

/-- A color map (palette): mapping from tag names to (start, stop) pairs of
color sequences, modelled as an association list (the Python dict literals in
the sources have distinct keys). -/
abbrev Palette : Type := List (String × (String × String))

/-- Python `dict.get`: first binding of the key, or `none` on a miss. -/
def Palette.get (p : Palette) (tag : String) : Option (String × String) :=
  match p with
  | [] => none
  | (k, v) :: rest => if k = tag then some v else Palette.get rest tag

/-- Python `''.join`: concatenation of a list of strings. -/
def joinStrs : List String → String
  | [] => ""
  | s :: rest => s ++ joinStrs rest

/-- A `color_tag` attribute value: Python allows either a single tag string
or a list of tag strings (docstring of `ColorizableMixin.__init__`). -/
inductive ColorTag where
  | str (s : String)
  | list (l : List String)
deriving DecidableEq

/-- Python iteration `for tag in color_tag`: iterating a list yields its
elements, iterating a string yields its characters (as one-character
strings). -/
def ColorTag.toTagList : ColorTag → List String
  | .str s => s.toList.map (fun c => String.mk [c])
  | .list l => l

/-- Python truthiness of a `color_tag` value: the empty string and the empty
list are falsy. -/
def ColorTag.falsy : ColorTag → Bool
  | .str s => s = ""
  | .list l => l = []

/-- Values handled by the colorizer: either a plain value without a
`color_tag` attribute, or a taggable value exposing one (the protocol of
`ColorizableMixin` / `chromalog.mark.Mark`).  The inner payload is kept as a
string, which is all the claims need. -/
inductive Value where
  | plain (s : String)
  | tagged (s : String) (tag : ColorTag)
deriving DecidableEq

/-- Python `getattr(obj, 'color_tag', None)`. -/
def Value.color_tag : Value → Option ColorTag
  | .plain _ => none
  | .tagged _ tag => some tag

/-- Python `str(obj)` on the inner value (marks render as their wrapped
object). -/
def Value.str : Value → String
  | .plain s => s
  | .tagged s _ => s

/-- Modelled from the spec: `chromalog.mark.Mark` is not under `src/`; the
spec consumes it as "a value exposing `value` and `color_tag`" carrying the
given tag, a single tag behaving as the one-tag set. -/
def Mark (s : String) (tag : String) : Value :=
  Value.tagged s (ColorTag.list [tag])

/-- `ColorizedObject`: wraps any object together with an optional
(start, stop) color pair (`colorizer.py`, lines 32-46). -/
structure ColorizedObject (α : Type) where
  obj : α
  color_pair : Option (String × String) := none
deriving DecidableEq

/-- `ColorizedObject.__str__` (lines 61-78): `start + str(obj) + stop` when a
color pair is attached, plain `str(obj)` otherwise.  In Python
`if not self.color_pair` is true exactly for `None` (every 2-tuple is
truthy), so `some p` always takes the wrapping branch. -/
def ColorizedObject.render (strOf : α → String) (co : ColorizedObject α) : String :=
  match co.color_pair with
  | none => strOf co.obj
  | some pair => pair.1 ++ strOf co.obj ++ pair.2

/-- `ColorizedObject.__eq__` (lines 107-137): equal iff both the wrapped
objects and the color pairs are equal (the non-instance branch, which
returns `None` in Python, does not arise in a single-type embedding). -/
def ColorizedObject.eq [DecidableEq α] (self other : ColorizedObject α) : Bool :=
  decide (other.obj = self.obj) && decide (other.color_pair = self.color_pair)

/-- `GenericColorizer` state: the color map and the optional default color
tag (lines 199-215). -/
structure GenericColorizer where
  color_map : Palette
  default_color_tag : Option String := none

/-- `GenericColorizer.get_color_pair` (lines 217-245), step for step:
collect the palette pairs of the found tags, fall back to the default tag
when none was found, prepend the reversed and the normal context pair when a
context tag is given and found, then join the starts in order and the stops
in reverse order.  `if context_color_tag:` is Python truthiness, so an empty
context string behaves like `None`; `self.color_map.get(self.default_color_tag)`
with no default configured is a miss. -/
def GenericColorizer.get_color_pair (cz : GenericColorizer) (color_tag : ColorTag)
    (context_color_tag : Option String := none) : String × String :=
  let pairs := (ColorTag.toTagList color_tag).filterMap (fun tag => Palette.get cz.color_map tag)
  let pairs :=
    if pairs.isEmpty then
      match cz.default_color_tag with
      | some dt =>
        match Palette.get cz.color_map dt with
        | some pair => [pair]
        | none => pairs
      | none => pairs
    else pairs
  let pairs :=
    match context_color_tag with
    | some ctx =>
      if ctx = "" then pairs
      else
        match Palette.get cz.color_map ctx with
        | some ctx_pair => (ctx_pair.2, ctx_pair.1) :: ctx_pair :: pairs
        | none => pairs
    | none => pairs
  (joinStrs (pairs.map Prod.fst), joinStrs (pairs.reverse.map Prod.snd))

/-- `GenericColorizer.colorize` (lines 247-266): read the `color_tag`
attribute; when it is truthy resolve a color pair, otherwise attach `None`;
always return a `ColorizedObject` wrapper. -/
def GenericColorizer.colorize (cz : GenericColorizer) (obj : Value)
    (context_color_tag : Option String := none) : ColorizedObject Value :=
  match Value.color_tag obj with
  | some tag =>
    if ColorTag.falsy tag then { obj := obj, color_pair := none }
    else { obj := obj, color_pair := some (cz.get_color_pair tag context_color_tag) }
  | none => { obj := obj, color_pair := none }

/-- Python `dict.get` on the keyword-argument dictionary of `str.format`. -/
def lookupKw : List (String × String) → String → Option String
  | [], _ => none
  | (k, v) :: rest, key => if k = key then some v else lookupKw rest key

/-- Accumulating decimal reading of a digit list (helper of `strToNat?`). -/
def digitsToNat? : List Char → Nat → Option Nat
  | [], acc => some acc
  | c :: rest, acc =>
    if c.isDigit then digitsToNat? rest (acc * 10 + (c.toNat - 48)) else none

/-- Python `int` conversion of a replacement-field name: `some n` when the
field is a non-empty string of decimal digits, `none` otherwise. -/
def strToNat? (s : String) : Option Nat :=
  match s.toList with
  | [] => none
  | cs => digitsToNat? cs 0

mutual

/-- Modelled from the spec: `str.format` is Python standard library, used by
`Printer.__call__` with "standard \x7b\x7d-style positional and
\x7bname\x7d-style named placeholders (numbered/auto positional, named keys,
no custom extensions)".  The scanner walks the template characters: doubled
braces are literals, an empty field takes the next auto-numbered positional
argument, a numeric field a given positional argument, any other field the
named argument; a missing argument, an unclosed field or a lone closing
brace is a substitution error (`none`, an exception in Python). -/
def scanFmt (args : List String) (kwargs : List (String × String)) :
    List Char → Nat → Option String
  | [], _ => some ""
  | '\x7b' :: '\x7b' :: rest, auto =>
      (scanFmt args kwargs rest auto).map (fun s => "\x7b" ++ s)
  | '\x7b' :: rest, auto => scanField args kwargs rest "" auto
  | '\x7d' :: '\x7d' :: rest, auto =>
      (scanFmt args kwargs rest auto).map (fun s => "\x7d" ++ s)
  | '\x7d' :: _, _ => none
  | c :: rest, auto => (scanFmt args kwargs rest auto).map (fun s => String.mk [c] ++ s)

/-- Reads a replacement field up to the closing brace and substitutes it
(helper of `scanFmt`). -/
def scanField (args : List String) (kwargs : List (String × String)) :
    List Char → String → Nat → Option String
  | [], _, _ => none
  | '\x7d' :: rest, field, auto =>
      let lookedUp : Option String × Nat :=
        if field = "" then (args.get? auto, auto + 1)
        else
          match strToNat? field with
          | some i => (args.get? i, auto)
          | none => (lookupKw kwargs field, auto)
      match lookedUp.1 with
      | some v => (scanFmt args kwargs rest lookedUp.2).map (fun s => v ++ s)
      | none => none
  | c :: rest, field, auto => scanField args kwargs rest (field ++ String.mk [c]) auto

end

/-- `Printer` (lines 140-155): a colorizer, a stream and an optional context
color tag.  The stream is represented by the list of chunks `__call__`
appends to it, returned by `Printer.call`. -/
structure Printer where
  colorizer : GenericColorizer
  context_color_tag : Option String := none

/-- `Printer.__call__` (lines 157-183): with a truthy context tag the
message template is first rendered through `colorize(Mark(msg, ctag))` and
the argument colorizer is bound to that context; every positional and named
argument is colorized and substituted into the template; the formatted text
and then the newline are written to the stream.  The result is the list of
written chunks (`none` when the substitution raises, in which case nothing
is written). -/
def Printer.call (p : Printer) (msg : String) (args : List Value)
    (kwargs : List (String × Value)) : Option (List String) :=
  let ctxTruthy : Option String :=
    match p.context_color_tag with
    | some c => if c = "" then none else some c
    | none => none
  let msg1 : String :=
    match ctxTruthy with
    | some ctx => (p.colorizer.colorize (Mark msg ctx)).render Value.str
    | none => msg
  let cfunc : Value → ColorizedObject Value :=
    match ctxTruthy with
    | some ctx => fun v => p.colorizer.colorize v (some ctx)
    | none => fun v => p.colorizer.colorize v
  let argStrs := args.map (fun v => (cfunc v).render Value.str)
  let kwargStrs := kwargs.map (fun kv => (kv.1, (cfunc kv.2).render Value.str))
  match scanFmt argStrs kwargStrs msg1.toList 0 with
  | some text => some [text, "\n"]
  | none => none

/-- `Printer.with_context` (lines 185-196): a new printer with the same
colorizer and stream and the given context color tag. -/
def Printer.with_context (p : Printer) (context_color_tag : String) : Printer :=
  { colorizer := p.colorizer, context_color_tag := some context_color_tag }

/-- `GenericColorizer.printer` (lines 268-282). -/
def GenericColorizer.printer (cz : GenericColorizer)
    (context_color_tag : Option String := none) : Printer :=
  { colorizer := cz, context_color_tag := context_color_tag }

/-- `colorama.Fore.CYAN`. -/
def Fore.CYAN : String := "\x1b[36m"

/-- `colorama.Fore.GREEN`. -/
def Fore.GREEN : String := "\x1b[32m"

/-- `colorama.Fore.YELLOW`. -/
def Fore.YELLOW : String := "\x1b[33m"

/-- `colorama.Fore.RED`. -/
def Fore.RED : String := "\x1b[31m"

/-- `colorama.Back.RED`. -/
def Back.RED : String := "\x1b[41m"

/-- `colorama.Style.DIM`. -/
def Style.DIM : String := "\x1b[2m"

/-- `colorama.Style.BRIGHT`. -/
def Style.BRIGHT : String := "\x1b[1m"

/-- `colorama.Style.RESET_ALL`. -/
def Style.RESET_ALL : String := "\x1b[0m"

/-- `Colorizer.default_color_map` (lines 289-297). -/
def Colorizer.default_color_map : Palette :=
  [ ("debug", (Style.DIM ++ Fore.CYAN, Style.RESET_ALL)),
    ("info", (Style.RESET_ALL, Style.RESET_ALL)),
    ("important", (Style.BRIGHT, Style.RESET_ALL)),
    ("success", (Fore.GREEN, Style.RESET_ALL)),
    ("warning", (Fore.YELLOW, Style.RESET_ALL)),
    ("error", (Fore.RED, Style.RESET_ALL)),
    ("critical", (Back.RED, Style.RESET_ALL)) ]

/-- `GenericColorizer.__init__` as inherited by `Colorizer` (lines 204-215):
`self.color_map = color_map or self.default_color_map`, so both `None` and a
falsy (empty) mapping are replaced by the class default palette. -/
def Colorizer.init (color_map : Option Palette := none)
    (default_color_tag : Option String := none) : GenericColorizer :=
  { color_map :=
      match color_map with
      | some m => if m.isEmpty then Colorizer.default_color_map else m
      | none => Colorizer.default_color_map,
    default_color_tag := default_color_tag }

/-- `MonochromaticColorizer.default_color_map` (lines 305-307). -/
def MonochromaticColorizer.default_color_map : Palette :=
  [("important", ("**", "**"))]

/-- `GenericColorizer.__init__` as inherited by `MonochromaticColorizer`. -/
def MonochromaticColorizer.init (color_map : Option Palette := none)
    (default_color_tag : Option String := none) : GenericColorizer :=
  { color_map :=
      match color_map with
      | some m => if m.isEmpty then MonochromaticColorizer.default_color_map else m
      | none => MonochromaticColorizer.default_color_map,
    default_color_tag := default_color_tag }

/-- The palette pairs of the found tags (step 1 of `get_color_pair`,
line 226-228): lookups that miss are dropped. -/
def GenericColorizer.keptPairs (cz : GenericColorizer) (tags : List String) :
    List (String × String) :=
  tags.filterMap (fun tag => Palette.get cz.color_map tag)

/-- The pair list after the default-tag fallback (steps 1-2 of
`get_color_pair`, lines 226-234), before any context handling. -/
def GenericColorizer.resolvedPairs (cz : GenericColorizer) (tags : List String) :
    List (String × String) :=
  if (cz.keptPairs tags).isEmpty then
    match cz.default_color_tag with
    | some dt =>
      match Palette.get cz.color_map dt with
      | some pair => [pair]
      | none => cz.keptPairs tags
    | none => cz.keptPairs tags
  else cz.keptPairs tags

/-- The colorizer of `test_colorizer_get_color_pair_found_with_context`. -/
def czAB : GenericColorizer :=
  { color_map := [("a", ("[", "]")), ("b", ("<", ">"))] }

/-- The three-tag colorizer of `test_printer`. -/
def cz3 : GenericColorizer :=
  { color_map := [("a", ("[", "]")), ("b", ("(", ")")), ("c", ("<", ">"))] }

/-- The colorizer of `test_colorizer_get_color_pair_not_found_with_default`. -/
def czDefault : GenericColorizer :=
  { color_map := [("a", ("[", "]")), ("b", ("<", ">"))],
    default_color_tag := some "b" }

/-- A colorizer whose palette has the two-character key `ab`. -/
def czStringTag : GenericColorizer :=
  { color_map := [("ab", ("S", "E"))] }

/-- A colorizer with an empty palette
(`test_colorizer_get_color_pair_not_found`). -/
def czEmptyMap : GenericColorizer := { color_map := [] }

theorem joinStrs_append (l1 l2 : List String) :
    joinStrs (l1 ++ l2) = joinStrs l1 ++ joinStrs l2 := by
  induction l1 with
  | nil => simp [joinStrs, String.empty_append]
  | cons s rest ih => simp [joinStrs, ih, String.append_assoc]

theorem keptPairs_nil (cz : GenericColorizer) : cz.keptPairs [] = [] := rfl

theorem keptPairs_cons_found (cz : GenericColorizer) (t : String) (T : List String)
    (p : String × String) (h : Palette.get cz.color_map t = some p) :
    cz.keptPairs (t :: T) = p :: cz.keptPairs T := by
  simp [GenericColorizer.keptPairs, List.filterMap_cons, h]

theorem keptPairs_cons_miss (cz : GenericColorizer) (t : String) (T : List String)
    (h : Palette.get cz.color_map t = none) :
    cz.keptPairs (t :: T) = cz.keptPairs T := by
  simp [GenericColorizer.keptPairs, List.filterMap_cons, h]

theorem keptPairs_all_miss (cz : GenericColorizer) (T : List String)
    (h : ∀ t ∈ T, Palette.get cz.color_map t = none) : cz.keptPairs T = [] := by
  induction T with
  | nil => rfl
  | cons t rest ih =>
    rw [keptPairs_cons_miss cz t rest (h t (by simp))]
    exact ih (fun x hx => h x (by simp [hx]))

theorem resolvedPairs_of_found (cz : GenericColorizer) (T : List String)
    (h : (cz.keptPairs T).isEmpty = false) : cz.resolvedPairs T = cz.keptPairs T := by
  simp [GenericColorizer.resolvedPairs, h]

theorem resolvedPairs_default (cz : GenericColorizer) (T : List String) (d : String)
    (p : String × String) (hk : cz.keptPairs T = [])
    (hd : cz.default_color_tag = some d) (hp : Palette.get cz.color_map d = some p) :
    cz.resolvedPairs T = [p] := by
  simp [GenericColorizer.resolvedPairs, hk, hd, hp]

theorem resolvedPairs_empty (cz : GenericColorizer) (T : List String)
    (hk : cz.keptPairs T = [])
    (hd : ∀ d, cz.default_color_tag = some d → Palette.get cz.color_map d = none) :
    cz.resolvedPairs T = [] := by
  cases hdef : cz.default_color_tag with
  | none => simp [GenericColorizer.resolvedPairs, hk, hdef]
  | some d => simp [GenericColorizer.resolvedPairs, hk, hdef, hd d hdef]

theorem get_color_pair_none (cz : GenericColorizer) (T : List String) :
    cz.get_color_pair (ColorTag.list T) none =
      (joinStrs ((cz.resolvedPairs T).map Prod.fst),
       joinStrs ((cz.resolvedPairs T).reverse.map Prod.snd)) := rfl

theorem get_color_pair_ctx_found (cz : GenericColorizer) (T : List String)
    (c sc ec : String) (hc : c ≠ "")
    (hp : Palette.get cz.color_map c = some (sc, ec)) :
    cz.get_color_pair (ColorTag.list T) (some c) =
      (ec ++ sc ++ joinStrs ((cz.resolvedPairs T).map Prod.fst),
       joinStrs ((cz.resolvedPairs T).reverse.map Prod.snd) ++ ec ++ sc) := by
  simp only [GenericColorizer.get_color_pair, ColorTag.toTagList, hp, hc,
    if_false, GenericColorizer.resolvedPairs, GenericColorizer.keptPairs]
  simp [joinStrs, List.reverse_cons, List.map_append, joinStrs_append,
    String.append_assoc, String.append_empty]

theorem get_color_pair_ctx_miss (cz : GenericColorizer) (T : List String)
    (c : String) (hp : Palette.get cz.color_map c = none) :
    cz.get_color_pair (ColorTag.list T) (some c) =
      cz.get_color_pair (ColorTag.list T) none := by
  by_cases hc : c = "" <;>
    simp [GenericColorizer.get_color_pair, ColorTag.toTagList, hp, hc]

theorem get_color_pair_ctx_blank (cz : GenericColorizer) (tag : ColorTag) :
    cz.get_color_pair tag (some "") = cz.get_color_pair tag none := by
  simp [GenericColorizer.get_color_pair]

theorem get_color_pair_congr (cz : GenericColorizer) (T1 T2 : List String)
    (ctx : Option String) (h : cz.resolvedPairs T1 = cz.resolvedPairs T2) :
    cz.get_color_pair (ColorTag.list T1) ctx = cz.get_color_pair (ColorTag.list T2) ctx := by
  cases ctx with
  | none => rw [get_color_pair_none, get_color_pair_none, h]
  | some c =>
    by_cases hc : c = ""
    · subst hc
      rw [get_color_pair_ctx_blank, get_color_pair_ctx_blank,
        get_color_pair_none, get_color_pair_none, h]
    · cases hpc : Palette.get cz.color_map c with
      | none =>
        rw [get_color_pair_ctx_miss _ _ _ hpc, get_color_pair_ctx_miss _ _ _ hpc,
          get_color_pair_none, get_color_pair_none, h]
      | some p =>
        obtain ⟨sc, ec⟩ := p
        rw [get_color_pair_ctx_found _ _ _ _ _ hc hpc,
          get_color_pair_ctx_found _ _ _ _ _ hc hpc, h]

/-- C1 counterexample: in the palette of
`test_colorizer_get_color_pair_found_with_context` the context tag `b` has
the pair `("<", ">")` and the tag `a` has `("[", "]")`; the claimed result
`(ec+sa, ea+sc) = (">[", "]<")` differs from what the code computes,
`("><[", "]><")` (the code also prepends the normal context pair). -/
theorem c1_counterexample :
    Palette.get czAB.color_map "b" = some ("<", ">") ∧
    Palette.get czAB.color_map "a" = some ("[", "]") ∧
    czAB.get_color_pair (ColorTag.list ["a"]) (some "b") ≠ (">" ++ "[", "]" ++ "<") ∧
    czAB.get_color_pair (ColorTag.list ["a"]) (some "b") = ("><[", "]><") := by
  decide

/-- C1 (amended): for every palette containing a context tag `c` with pair
`(sc, ec)` and a tag `a` with pair `(sa, ea)`, resolving the single-tag list
`[a]` with context tag `c` returns exactly `(ec+sc+sa, ea+ec+sc)` — the
reversed context pair and the normal context pair are both prepended before
the tag pair. -/
theorem c1_context_composition (cz : GenericColorizer) (c a sc ec sa ea : String)
    (hc : c ≠ "") (hctx : Palette.get cz.color_map c = some (sc, ec))
    (ha : Palette.get cz.color_map a = some (sa, ea)) :
    cz.get_color_pair (ColorTag.list [a]) (some c) =
      (ec ++ sc ++ sa, ea ++ ec ++ sc) := by
  rw [get_color_pair_ctx_found cz [a] c sc ec hc hctx]
  have hk : cz.keptPairs [a] = [(sa, ea)] := by
    rw [keptPairs_cons_found cz a [] (sa, ea) ha, keptPairs_nil]
  rw [resolvedPairs_of_found cz [a] (by rw [hk]; rfl), hk]
  simp [joinStrs, String.append_assoc, String.append_empty]

/-- C1 witness: the concrete instance of
`test_colorizer_get_color_pair_found_with_context`. -/
theorem c1_witness :
    ("b" : String) ≠ "" ∧
    czAB.get_color_pair (ColorTag.list ["a"]) (some "b") =
      (">" ++ "<" ++ "[", "]" ++ ">" ++ "<") :=
  ⟨by decide, c1_context_composition czAB "b" "a" "<" ">" "[" "]" (by decide) rfl rfl⟩

/-- C2: when the supplied context tag `c` is present with pair `(sc, ec)`,
`get_color_pair` prepends exactly the reversed context pair `(ec, sc)` and
then the normal context pair `(sc, ec)` before the tag-derived pairs, and
joins with step 4; a single found tag `a` under context `c` hence yields
`(ec+sc+sa, ea+ec+sc)`; when `c` is absent nothing is prepended. -/
theorem c2_context_prepends_two (cz : GenericColorizer) (c c0 a : String)
    (T : List String) (sc ec sa ea : String) (hc : c ≠ "")
    (hctx : Palette.get cz.color_map c = some (sc, ec))
    (ha : Palette.get cz.color_map a = some (sa, ea))
    (hmiss : Palette.get cz.color_map c0 = none) :
    cz.get_color_pair (ColorTag.list T) (some c) =
      (joinStrs (((ec, sc) :: (sc, ec) :: cz.resolvedPairs T).map Prod.fst),
       joinStrs ((((ec, sc) :: (sc, ec) :: cz.resolvedPairs T)).reverse.map Prod.snd)) ∧
    cz.get_color_pair (ColorTag.list [a]) (some c) =
      (ec ++ sc ++ sa, ea ++ ec ++ sc) ∧
    cz.get_color_pair (ColorTag.list T) (some c0) =
      cz.get_color_pair (ColorTag.list T) none := by
  refine ⟨?_, ?_, get_color_pair_ctx_miss cz T c0 hmiss⟩
  · rw [get_color_pair_ctx_found cz T c sc ec hc hctx]
    simp [joinStrs, List.reverse_cons, List.map_append, joinStrs_append,
      String.append_assoc, String.append_empty]
  · rw [get_color_pair_ctx_found cz [a] c sc ec hc hctx]
    have hk : cz.keptPairs [a] = [(sa, ea)] := by
      rw [keptPairs_cons_found cz a [] (sa, ea) ha, keptPairs_nil]
    rw [resolvedPairs_of_found cz [a] (by rw [hk]; rfl), hk]
    simp [joinStrs, String.append_assoc, String.append_empty]

/-- C2 witness: palette of `test_colorizer_get_color_pair_found_with_context`
with the found context `b`, the found tag `a` and the missing context `z`. -/
theorem c2_witness :
    ("b" : String) ≠ "" ∧
    (czAB.get_color_pair (ColorTag.list ["a"]) (some "b") =
      (joinStrs (((">", "<") :: ("<", ">") :: czAB.resolvedPairs ["a"]).map Prod.fst),
       joinStrs ((((">", "<") :: ("<", ">") :: czAB.resolvedPairs ["a"])).reverse.map Prod.snd)) ∧
     czAB.get_color_pair (ColorTag.list ["a"]) (some "b") =
      (">" ++ "<" ++ "[", "]" ++ ">" ++ "<") ∧
     czAB.get_color_pair (ColorTag.list ["a"]) (some "z") =
      czAB.get_color_pair (ColorTag.list ["a"]) none) :=
  ⟨by decide, c2_context_prepends_two czAB "b" "z" "a" ["a"] "<" ">" "[" "]"
    (by decide) rfl rfl rfl⟩

/-- C4: for two tags both present in the palette, resolving `[t1, t2]` with
no context returns `(s1+s2, e2+e1)`; in general the final start is the
concatenation of the kept pairs' start strings in list order and the final
stop the concatenation of their stop strings in reverse list order. -/
theorem c4_reverse_order_closing (cz : GenericColorizer) (t1 t2 : String)
    (s1 e1 s2 e2 : String) (T : List String)
    (h1 : Palette.get cz.color_map t1 = some (s1, e1))
    (h2 : Palette.get cz.color_map t2 = some (s2, e2))
    (hT : (cz.keptPairs T).isEmpty = false) :
    cz.get_color_pair (ColorTag.list [t1, t2]) none = (s1 ++ s2, e2 ++ e1) ∧
    cz.get_color_pair (ColorTag.list T) none =
      (joinStrs ((cz.keptPairs T).map Prod.fst),
       joinStrs ((cz.keptPairs T).reverse.map Prod.snd)) := by
  constructor
  · have hk : cz.keptPairs [t1, t2] = [(s1, e1), (s2, e2)] := by
      rw [keptPairs_cons_found cz t1 [t2] (s1, e1) h1,
        keptPairs_cons_found cz t2 [] (s2, e2) h2, keptPairs_nil]
    rw [get_color_pair_none, resolvedPairs_of_found cz [t1, t2] (by rw [hk]; rfl), hk]
    simp [joinStrs, String.append_assoc, String.append_empty]
  · rw [get_color_pair_none, resolvedPairs_of_found cz T hT]

/-- C4 witness: the instance of `test_colorizer_get_color_pair_found_double`,
`(['a', 'b'])` on the palette with `a` and `b`. -/
theorem c4_witness :
    (czAB.keptPairs ["a", "b"]).isEmpty = false ∧
    (czAB.get_color_pair (ColorTag.list ["a", "b"]) none = ("[" ++ "<", ">" ++ "]") ∧
     czAB.get_color_pair (ColorTag.list ["a", "b"]) none =
      (joinStrs ((czAB.keptPairs ["a", "b"]).map Prod.fst),
       joinStrs ((czAB.keptPairs ["a", "b"]).reverse.map Prod.snd))) :=
  ⟨by decide, c4_reverse_order_closing czAB "a" "b" "[" "]" "<" ">" ["a", "b"]
    rfl rfl (by decide)⟩

/-- C3: with palette `a:([,])`, `b:((,))`, `c:(<,>)`, no default tag and no
context tag, emitting template `this \x7b\x7d a \x7bvalue\x7d !` with the
untagged positional argument `is` and a named `value` tagged `[a, b, c]`
writes exactly `this is a [(<value>)] !` and then the newline to a fresh
sink, and nothing else;  the two chunks concatenate to the full line. -/
theorem c3_end_to_end :
    Printer.call { colorizer := cz3 } "this \x7b\x7d a \x7bvalue\x7d !"
        [Value.plain "is"]
        [("value", Value.tagged "value" (ColorTag.list ["a", "b", "c"]))] =
      some ["this is a [(<value>)] !", "\n"] ∧
    joinStrs ["this is a [(<value>)] !", "\n"] = "this is a [(<value>)] !\n" := by
  decide

/-- C5 (code bug): the palette maps the key `ab` to `("S", "E")`, but
colorizing a value whose `color_tag` attribute is the single tag string
`"ab"` yields the pair `("", "")`, not `("S", "E")`: `get_color_pair`
iterates the string character by character and looks up `"a"` and `"b"`,
both misses, whereas the one-element list `["ab"]` yields `("S", "E")` as
the claim states for both forms. -/
theorem c5_string_tag_divergence :
    Palette.get czStringTag.color_map "ab" = some ("S", "E") ∧
    (czStringTag.colorize (Value.tagged "v" (ColorTag.str "ab"))).color_pair =
      some ("", "") ∧
    (czStringTag.colorize (Value.tagged "v" (ColorTag.list ["ab"]))).color_pair =
      some ("S", "E") ∧
    ColorTag.toTagList (ColorTag.str "ab") = ["a", "b"] := by
  decide

/-- C6 counterexample: an emit call writes two chunks to the sink — the
substituted text and then the newline as a separate write — not a single
string; its write list has length 2, not 1. -/
theorem c6_counterexample :
    Printer.call { colorizer := cz3 } "hello" [] [] = some ["hello", "\n"] ∧
    (Printer.call { colorizer := cz3 } "hello" [] []).map List.length ≠ some 1 := by
  decide

/-- C6 (amended): every emit call either raises during substitution and
writes nothing, or performs exactly two append operations on the sink: the
substituted template text, then the trailing newline as a separate write. -/
theorem c6_two_writes (p : Printer) (msg : String) (args : List Value)
    (kwargs : List (String × Value)) :
    Printer.call p msg args kwargs = none ∨
    ∃ text : String, Printer.call p msg args kwargs = some [text, "\n"] := by
  simp only [Printer.call]
  split
  · right; exact ⟨_, rfl⟩
  · left; rfl

/-- C7: when every listed tag misses the palette and a default tag is
configured and present with pair `(sd, ed)`, resolving with no context
returns exactly `(sd, ed)`; and when at least one listed tag is found the
default tag contributes nothing — the result equals that of the same
colorizer with no default configured. -/
theorem c7_default_fallback (cz : GenericColorizer) (T T2 : List String)
    (d sd ed : String) (hd : cz.default_color_tag = some d)
    (hp : Palette.get cz.color_map d = some (sd, ed))
    (hmiss : ∀ t ∈ T, Palette.get cz.color_map t = none)
    (hT2 : (cz.keptPairs T2).isEmpty = false) :
    cz.get_color_pair (ColorTag.list T) none = (sd, ed) ∧
    cz.get_color_pair (ColorTag.list T2) none =
      GenericColorizer.get_color_pair
        { color_map := cz.color_map, default_color_tag := none }
        (ColorTag.list T2) none := by
  constructor
  · rw [get_color_pair_none,
      resolvedPairs_default cz T d (sd, ed) (keptPairs_all_miss cz T hmiss) hd hp]
    simp [joinStrs, String.append_empty]
  · have hsame :
        GenericColorizer.keptPairs
          { color_map := cz.color_map, default_color_tag := none } T2 =
          cz.keptPairs T2 := rfl
    rw [get_color_pair_none, get_color_pair_none, resolvedPairs_of_found cz T2 hT2,
      resolvedPairs_of_found _ T2 (by rw [hsame]; exact hT2), hsame]

/-- C7 witness: the instance of
`test_colorizer_get_color_pair_not_found_with_default` — tag list `['c']`
misses, default `b` supplies `("<", ">")`; and with the found list `['a']`
the default does not matter. -/
theorem c7_witness :
    czDefault.default_color_tag = some "b" ∧
    (czDefault.get_color_pair (ColorTag.list ["c"]) none = ("<", ">") ∧
     czDefault.get_color_pair (ColorTag.list ["a"]) none =
      GenericColorizer.get_color_pair
        { color_map := czDefault.color_map, default_color_tag := none }
        (ColorTag.list ["a"]) none) :=
  ⟨rfl, c7_default_fallback czDefault ["c"] ["a"] "b" "<" ">" rfl rfl
    (by intro t ht; rw [List.mem_singleton] at ht; subst ht; rfl) (by decide)⟩

/-- C8: `get_color_pair` is total by construction (the embedding is a plain
function, mirroring code with no raising operation); every palette miss is
silently skipped — a missing listed tag contributes no pair — and when every
lookup misses (listed tags, default tag and context tag alike, in
particular for the empty list with no default and no context) the result is
the identity pair `("", "")`. -/
theorem c8_total_identity (cz : GenericColorizer) (T T2 : List String)
    (ctag c2 : Option String) (t : String)
    (hmiss : ∀ x ∈ T, Palette.get cz.color_map x = none)
    (hdef : ∀ d, cz.default_color_tag = some d → Palette.get cz.color_map d = none)
    (hctx : ∀ c, ctag = some c → c = "" ∨ Palette.get cz.color_map c = none)
    (ht : Palette.get cz.color_map t = none) :
    cz.get_color_pair (ColorTag.list T) ctag = ("", "") ∧
    cz.get_color_pair (ColorTag.list (t :: T2)) c2 =
      cz.get_color_pair (ColorTag.list T2) c2 := by
  have hre : cz.resolvedPairs T = [] :=
    resolvedPairs_empty cz T (keptPairs_all_miss cz T hmiss) hdef
  constructor
  · cases ctag with
    | none => rw [get_color_pair_none, hre]; rfl
    | some c =>
      rcases hctx c rfl with hc | hmc
      · subst hc
        rw [get_color_pair_ctx_blank, get_color_pair_none, hre]; rfl
      · rw [get_color_pair_ctx_miss cz T c hmc, get_color_pair_none, hre]; rfl
  · exact get_color_pair_congr cz (t :: T2) T2 c2 (by
      simp [GenericColorizer.resolvedPairs, keptPairs_cons_miss cz t T2 ht])

/-- C8 witness: the empty palette of
`test_colorizer_get_color_pair_not_found` — resolving `['a']` under context
`x` yields the identity pair, and the missing tag `a` in front of `['b']`
changes nothing. -/
theorem c8_witness :
    Palette.get czEmptyMap.color_map "a" = none ∧
    (czEmptyMap.get_color_pair (ColorTag.list ["a"]) (some "x") = ("", "") ∧
     czEmptyMap.get_color_pair (ColorTag.list ["a", "b"]) none =
      czEmptyMap.get_color_pair (ColorTag.list ["b"]) none) :=
  ⟨rfl, c8_total_identity czEmptyMap ["a"] ["b"] (some "x") none "a"
    (by intro x hx; rw [List.mem_singleton] at hx; subst hx; rfl)
    (by intro d hd; exact Option.noConfusion hd)
    (by intro c hc; cases hc; right; rfl)
    rfl⟩

/-- C9: two `ColorizedObject` wrappers compare equal exactly when their
inner objects are equal and their color pairs are equal; in particular a
wrapper with absent color is never equal to one with the explicit empty
pair `("", "")`. -/
theorem c9_eq_semantics {α : Type} [DecidableEq α] (a b : ColorizedObject α)
    (v : α) :
    (ColorizedObject.eq a b = true ↔
      a.obj = b.obj ∧ a.color_pair = b.color_pair) ∧
    ColorizedObject.eq { obj := v, color_pair := none }
      { obj := v, color_pair := some ("", "") } = false := by
  constructor
  · unfold ColorizedObject.eq
    rw [Bool.and_eq_true, decide_eq_true_iff, decide_eq_true_iff]
    constructor
    · rintro ⟨h1, h2⟩; exact ⟨h1.symm, h2.symm⟩
    · rintro ⟨h1, h2⟩; exact ⟨h1.symm, h2.symm⟩
  · simp [ColorizedObject.eq]

/-- C10: constructing a `Colorizer` from an empty (falsy) palette mapping
silently falls back to the class's built-in default palette, so every tag
resolves exactly as it does for a colorizer built with no palette argument
— an intentionally empty palette cannot disable the default colors. -/
theorem c10_empty_palette_uses_defaults (d : Option String) (tag : ColorTag)
    (ctx : Option String) :
    (Colorizer.init (some []) d).get_color_pair tag ctx =
      (Colorizer.init none d).get_color_pair tag ctx ∧
    (Colorizer.init (some []) d).color_map = Colorizer.default_color_map :=
  ⟨rfl, rfl⟩
